import Mathlib

/-!
Verification of `src/migration.py` (LangsmithMigrator), a one-shot batch
migration client that copies datasets, examples, experiments, runs,
annotation queues and project rules between two instances of a hosted
tracing platform.

The code is a stateless HTTP orchestrator.  We embed it shallowly:

* JSON values that the code only copies verbatim are modelled as opaque
  `String` / `Option String` / `Bool` / `Nat` fields.
* The source instance is read-only; its responses are parameters
  (functions from request parameters to response payloads).
* The destination instance is modelled by an explicit `DestState` that
  records the entities created so far plus an ordered `events` trace of
  the POSTs issued; lookup GETs against the destination are a
  parameter (`LookupResp`) because the code branches on the response
  body shape (`"detail" not in response.json()`).
* Python `dict` lookups that raise `KeyError` become `Option`-valued
  computations (`none` = the exception); `dict.get` becomes a total
  lookup returning `Option`.
* The `while` pagination loops take a fuel argument; the code's loop
  condition (`last_request_size == 100`) is reproduced exactly.
-/

/-- Response of a destination lookup GET.  The code distinguishes an
error body (a JSON object containing the key `"detail"`) from a result
list by payload sniffing: `if "detail" not in response.json()`. -/
inductive LookupResp (α : Type) where
  | error (detail : String)
  | results (items : List α)
deriving DecidableEq

/-- A source example as fetched from `GET /examples` (the fields read by
`migrate_dataset_examples`, lines 95-105).  `metadata` is a JSON object
or null: `none` models null/absent, `some m` an object given as an
association list. -/
structure SrcExample where
  id : String
  inputs : String
  outputs : Option String
  metadata : Option (List (String × String))
  created_at : String
deriving DecidableEq

/-- One element of the bulk-create payload POSTed to `/examples/bulk`
(lines 95-105). -/
structure ExamplePayload where
  dataset_id : String
  inputs : String
  outputs : Option String
  metadata : Option (List (String × String))
  created_at : String
  split : String
deriving DecidableEq

/-- A record returned by the destination bulk create (only its `id` is
read, line 115). -/
structure CreatedExample where
  id : String
deriving DecidableEq

/-- Line 102: `example["metadata"].get("dataset_split", "base") if
example["metadata"] else "base"`.  Python truthiness: `None` and the
empty dict are falsy, so both give `"base"`; otherwise `dict.get` with
default `"base"`. -/
def deriveSplit (metadata : Option (List (String × String))) : String :=
  match metadata with
  | none => "base"
  | some m => if m.isEmpty then "base" else (m.lookup "dataset_split").getD "base"

/-- The per-example creation payload built at lines 96-103. -/
def buildExamplePayload (new_dataset_id : String) (e : SrcExample) : ExamplePayload :=
  { dataset_id := new_dataset_id
    inputs := e.inputs
    outputs := e.outputs
    metadata := e.metadata
    created_at := e.created_at
    split := deriveSplit e.metadata }

/-- The offset-pagination `while` loop of `migrate_dataset_examples`
(lines 80-92) and `migrate_dataset_experiments` (lines 124-135):
fetch the page at offset `acc.length`, append it, and continue as long
as the page returned exactly 100 items (`last_request_size == 100`;
the initial value 100 means the first request is always issued).
`fuel` bounds the number of iterations. -/
def pageLoopAux (fetch : Nat → List α) : Nat → List α → List α
  | 0, acc => acc
  | fuel + 1, acc =>
    let page := fetch acc.length
    let acc2 := acc ++ page
    if page.length = 100 then pageLoopAux fetch fuel acc2 else acc2

/-- The full pagination loop starting from `offset = 0` and an empty
accumulator (lines 80-83). -/
def fetchAllPages (fetch : Nat → List α) (fuel : Nat) : List α :=
  pageLoopAux fetch fuel []

/-- A well-behaved source server holding the collection `all` and
serving offset-paginated pages of (at most) 100 items: the platform's
default page size relied upon by the loop condition. -/
def pagedServer (all : List α) (offset : Nat) : List α :=
  (all.drop offset).take 100

/-- The batch submitted to `POST /examples/bulk` (lines 95-110): every
collected source example transformed by `buildExamplePayload`. -/
def submittedBatch (fetch : Nat → List SrcExample) (new_dataset_id : String)
    (fuel : Nat) : List ExamplePayload :=
  (fetchAllPages fetch fuel).map (buildExamplePayload new_dataset_id)

/-- The ID-mapping dict comprehension at lines 114-117:
`{original_examples[i]["id"]: new_examples[i]["id"] for i in
range(len(new_examples))}` as an association list in insertion order.
Indexing `original_examples[i]` raises `IndexError` when the response
is longer than the request; that exception is `none`. -/
def buildIdMapping (originalIds createdIds : List String) :
    Option (List (String × String)) :=
  if createdIds.length ≤ originalIds.length then
    some ((originalIds.take createdIds.length).zip createdIds)
  else none

/-- `migrate_dataset_examples` (lines 74-117): collect all source
examples by offset pagination, transform them, submit one bulk create
(`bulkCreate` is the destination's response to the submitted batch) and
build the positional old-id → new-id mapping. -/
def migrate_dataset_examples (fetch : Nat → List SrcExample)
    (bulkCreate : List ExamplePayload → List CreatedExample)
    (new_dataset_id : String) (fuel : Nat) : Option (List (String × String)) :=
  let originals := fetchAllPages fetch fuel
  let created := bulkCreate (submittedBatch fetch new_dataset_id fuel)
  buildIdMapping (originals.map SrcExample.id) (created.map CreatedExample.id)

/-- A source run as returned by `POST /runs/query` (the fields read at
lines 170-195).  JSON values the code copies verbatim are opaque
strings; fields read with `run.get(...)` (which yields `None`/a default
when absent) are `Option`s. -/
structure SrcRun where
  name : String
  inputs : String
  run_type : String
  start_time : String
  end_time : String
  extra : String
  error : Option String
  serialized : Option String
  outputs : Option String
  parent_run_id : Option String
  events : Option (List String)
  tags : Option (List String)
  trace_id : String
  id : String
  dotted_order : String
  session_id : String
  session_name : Option String
  reference_example_id : Option String
  input_attachments : Option String
  output_attachments : Option String
deriving DecidableEq

/-- One element of the `"post"` list submitted to `POST /runs/batch`
(lines 170-195). -/
structure RunPayload where
  name : String
  inputs : String
  run_type : String
  start_time : String
  end_time : String
  extra : String
  error : Option String
  serialized : String
  outputs : Option String
  parent_run_id : Option String
  events : List String
  tags : List String
  trace_id : String
  id : String
  dotted_order : String
  session_id : String
  session_name : Option String
  reference_example_id : Option String
  input_attachments : String
  output_attachments : String
deriving DecidableEq

/-- The per-run payload of lines 171-193.  `session_id` is rewritten by
indexing the experiment mapping (`original_to_new_experiment_ids[run
["session_id"]]`, a `KeyError` — hence `none` — on a missing key) and
`reference_example_id` by `original_to_new_example_ids.get(run.get(
"reference_example_id"))`, which returns `None` both when the run has
no reference example and when the key is unmapped.  `run.get` defaults
(`{}` for `serialized` and attachments, `[]` for `events`/`tags`) are
the strings/lists below. -/
def rewriteRun (expMap exMap : List (String × String)) (r : SrcRun) :
    Option RunPayload :=
  match expMap.lookup r.session_id with
  | none => none
  | some newSessionId =>
    some
      { name := r.name
        inputs := r.inputs
        run_type := r.run_type
        start_time := r.start_time
        end_time := r.end_time
        extra := r.extra
        error := r.error
        serialized := r.serialized.getD "emptyObject"
        outputs := r.outputs
        parent_run_id := r.parent_run_id
        events := r.events.getD []
        tags := r.tags.getD []
        trace_id := r.trace_id
        id := r.id
        dotted_order := r.dotted_order
        session_id := newSessionId
        session_name := r.session_name
        reference_example_id := r.reference_example_id.bind (fun x => exMap.lookup x)
        input_attachments := r.input_attachments.getD "emptyObject"
        output_attachments := r.output_attachments.getD "emptyObject" }

/-- `Option`-valued map over a list: the semantics of the list
comprehension at lines 170-196, which aborts with the first `KeyError`
raised while building a payload. -/
def optionMapList (f : α → Option β) : List α → Option (List β)
  | [] => some []
  | a :: l =>
    match f a, optionMapList f l with
    | some b, some bs => some (b :: bs)
    | _, _ => none

/-- The `"post"` batch built for one page of runs (lines 170-196). -/
def buildRunsBatch (expMap exMap : List (String × String)) (runs : List SrcRun) :
    Option (List RunPayload) :=
  optionMapList (rewriteRun expMap exMap) runs

/-- A dataset record on the destination instance (the fields read back
from lookup/create responses: `id` at lines 43/61, matched by `name`). -/
structure DatasetRec where
  id : String
  name : String
deriving DecidableEq

/-- An annotation-queue record on the destination instance. -/
structure QueueRec where
  id : String
  name : String
deriving DecidableEq

/-- The `migration_mode` literal of `migrate_dataset` (line 19). -/
inductive MigrationMode where
  | EXAMPLES
  | EXAMPLES_AND_EXPERIMENTS
  | DATASET_ONLY
deriving DecidableEq

/-- The `migration_mode` literal of `migrate_annotation_queue`
(line 211). -/
inductive QueueMigrationMode where
  | QUEUE_AND_DATASET
  | QUEUE_ONLY
deriving DecidableEq

/-- The `ValueError`s raised by the code: "Found multiple datasets with
name ..." (line 41) and "Found multiple annotation queues with name
..." (line 232). -/
inductive MigError where
  | ambiguousName (name : String)
  | ambiguousQueueName (name : String)
deriving DecidableEq

/-- A source dataset as fetched from `GET /datasets/id` (the fields
read at lines 46-55). -/
structure SourceDataset where
  name : String
  description : String
  created_at : String
  inputs_schema_definition : Option String
  outputs_schema_definition : Option String
  externally_managed : Bool
  transformations : Option (List String)
  data_type : String
deriving DecidableEq

/-- The payload POSTed to `/datasets` (lines 46-55).  Line 53:
`original_dataset["transformations"] if original_dataset
["transformations"] else []` — Python truthiness sends `[]` for both
null and an empty list. -/
structure DatasetPayload where
  name : String
  description : String
  created_at : String
  inputs_schema_definition : Option String
  outputs_schema_definition : Option String
  externally_managed : Bool
  transformations : List String
  data_type : String
deriving DecidableEq

/-- The dataset creation payload builder (lines 46-55). -/
def datasetCreatePayload (src : SourceDataset) : DatasetPayload :=
  { name := src.name
    description := src.description
    created_at := src.created_at
    inputs_schema_definition := src.inputs_schema_definition
    outputs_schema_definition := src.outputs_schema_definition
    externally_managed := src.externally_managed
    transformations :=
      match src.transformations with
      | none => []
      | some ts => if ts.isEmpty then [] else ts
    data_type := src.data_type }

/-- A source annotation queue as fetched from
`GET /annotation-queues/id` (the fields read at lines 248-259). -/
structure SourceQueue where
  name : String
  description : Option String
  created_at : String
  updated_at : String
  default_dataset : Option String
  num_reviewers_per_item : Nat
  enable_reservations : Bool
  reservation_minutes : Option Nat
  rubric_items : List String
  rubric_instructions : Option String
deriving DecidableEq

/-- The payload POSTed to `/annotation-queues` (lines 248-260):
everything copied verbatim except `default_dataset` (the migrated ID or
null) and `session_ids`, always initialized empty. -/
structure QueuePayload where
  name : String
  description : Option String
  created_at : String
  updated_at : String
  default_dataset : Option String
  num_reviewers_per_item : Nat
  enable_reservations : Bool
  reservation_minutes : Option Nat
  rubric_items : List String
  rubric_instructions : Option String
  session_ids : List String
deriving DecidableEq

/-- The queue creation payload builder (lines 248-260). -/
def queueCreatePayload (src : SourceQueue) (default_dataset : Option String) :
    QueuePayload :=
  { name := src.name
    description := src.description
    created_at := src.created_at
    updated_at := src.updated_at
    default_dataset := default_dataset
    num_reviewers_per_item := src.num_reviewers_per_item
    enable_reservations := src.enable_reservations
    reservation_minutes := src.reservation_minutes
    rubric_items := src.rubric_items
    rubric_instructions := src.rubric_instructions
    session_ids := [] }

/-- A source rule as fetched from `GET /runs/rules?session_id=...`
(the fields read at lines 282-327).  Config fields the code copies
verbatim are opaque. -/
structure SourceRule where
  display_name : String
  dataset_id : Option String
  add_to_dataset_id : Option String
  add_to_annotation_queue_id : Option String
  is_enabled : Bool
  sampling_rate : String
  filter : Option String
  trace_filter : Option String
  tree_filter : Option String
  add_to_dataset_prefer_correction : Bool
  use_corrections_dataset : Bool
  num_few_shot_examples : Option Nat
  extend_only : Bool
  transient : Bool
  backfill_from : Option String
  evaluators : List String
  code_evaluators : List String
  alerts : List String
  webhooks : List String
deriving DecidableEq

/-- The payload POSTed to `/runs/rules` (lines 306-327). -/
structure RulePayload where
  display_name : String
  session_id : String
  is_enabled : Bool
  dataset_id : Option String
  sampling_rate : String
  filter : Option String
  trace_filter : Option String
  tree_filter : Option String
  add_to_annotation_queue_id : Option String
  add_to_dataset_id : Option String
  add_to_dataset_prefer_correction : Bool
  use_corrections_dataset : Bool
  num_few_shot_examples : Option Nat
  extend_only : Bool
  transient : Bool
  backfill_from : Option String
  evaluators : List String
  code_evaluators : List String
  alerts : List String
  webhooks : List String
deriving DecidableEq

/-- The rule creation payload builder (lines 306-327): `session_id`
forced to the new project, `dataset_id` forced to null, the two routing
targets replaced by the migrated IDs, everything else verbatim. -/
def ruleCreatePayload (r : SourceRule) (new_project_id : String)
    (add_to_annotation_queue_id add_to_dataset_id : Option String) : RulePayload :=
  { display_name := r.display_name
    session_id := new_project_id
    is_enabled := r.is_enabled
    dataset_id := none
    sampling_rate := r.sampling_rate
    filter := r.filter
    trace_filter := r.trace_filter
    tree_filter := r.tree_filter
    add_to_annotation_queue_id := add_to_annotation_queue_id
    add_to_dataset_id := add_to_dataset_id
    add_to_dataset_prefer_correction := r.add_to_dataset_prefer_correction
    use_corrections_dataset := r.use_corrections_dataset
    num_few_shot_examples := r.num_few_shot_examples
    extend_only := r.extend_only
    transient := r.transient
    backfill_from := r.backfill_from
    evaluators := r.evaluators
    code_evaluators := r.code_evaluators
    alerts := r.alerts
    webhooks := r.webhooks }

/-- One POST issued against the destination instance.  The two
`migrate_...` POST sequences for examples/experiments are recorded as
single events here because `migrate_dataset` only orchestrates the
calls; their internals are modelled above
(`migrate_dataset_examples`, `rewriteRun`, `buildRunsBatch`). -/
inductive Event where
  | createDataset (id : String) (payload : DatasetPayload)
  | migrateExamples (original_dataset_id new_dataset_id : String)
  | migrateExperiments (original_dataset_id new_dataset_id : String)
  | createQueue (id : String) (payload : QueuePayload)
  | createRule (payload : RulePayload)
deriving DecidableEq

/-- The destination instance's state: entities created so far, the
ordered trace of POSTs issued, and a counter from which the server
mints fresh IDs. -/
structure DestState where
  datasets : List DatasetRec
  queues : List QueueRec
  events : List Event
  nextId : Nat
deriving DecidableEq

/-- The ID the destination server assigns to the next created entity. -/
def freshId (st : DestState) : String :=
  "new-" ++ toString st.nextId

/-- The environment of remote responses: source-instance GETs
(read-only, hence plain functions of the request) and the destination
lookup GETs, which are functions of the destination's current contents
and the queried name. -/
structure MigEnv where
  srcDataset : String → SourceDataset
  srcQueue : String → SourceQueue
  srcRules : String → List SourceRule
  datasetLookup : List DatasetRec → String → LookupResp DatasetRec
  queueLookup : List QueueRec → String → LookupResp QueueRec

/-- A well-behaved destination lookup: `GET /datasets?name=...` returns
exactly the datasets with that name. -/
def nameFilterLookup (ds : List DatasetRec) (name : String) : LookupResp DatasetRec :=
  .results (ds.filter (fun d => d.name = name))

/-- A well-behaved destination queue lookup by name. -/
def queueNameFilterLookup (qs : List QueueRec) (name : String) : LookupResp QueueRec :=
  .results (qs.filter (fun q => q.name = name))

/-- The side effects of the `migration_mode` dispatch at lines 63-70. -/
def modeEvents (mode : MigrationMode) (original_dataset_id new_dataset_id : String) :
    List Event :=
  match mode with
  | .EXAMPLES => [.migrateExamples original_dataset_id new_dataset_id]
  | .EXAMPLES_AND_EXPERIMENTS =>
    [.migrateExamples original_dataset_id new_dataset_id,
     .migrateExperiments original_dataset_id new_dataset_id]
  | .DATASET_ONLY => []

/-- `migrate_dataset` (lines 15-72).  With `check_if_already_exists`,
the destination name lookup is consulted: an error body (`"detail"` in
the response) skips the whole check; otherwise more than one match
raises `ValueError`, exactly one match returns its ID without touching
the destination, and zero matches fall through to creation.  Creation
POSTs the dataset payload, then dispatches on `migration_mode`. -/
def migrate_dataset (env : MigEnv) (original_dataset_id : String)
    (check_if_already_exists : Bool) (migration_mode : MigrationMode)
    (st : DestState) : Except MigError String × DestState :=
  let src := env.srcDataset original_dataset_id
  let shortCircuit : Option (Except MigError String × DestState) :=
    if check_if_already_exists then
      match env.datasetLookup st.datasets src.name with
      | .error _ => none
      | .results ds =>
        match ds with
        | [] => none
        | [d] => some (.ok d.id, st)
        | _ => some (.error (.ambiguousName src.name), st)
    else none
  match shortCircuit with
  | some r => r
  | none =>
    let newId := freshId st
    (.ok newId,
      { datasets := st.datasets ++ [{ id := newId, name := src.name }]
        queues := st.queues
        events := st.events ++ [.createDataset newId (datasetCreatePayload src)]
          ++ modeEvents migration_mode original_dataset_id newId
        nextId := st.nextId + 1 })

/-- `migrate_annotation_queue` (lines 208-267): the same existence
check keyed by queue name; then, for `QUEUE_AND_DATASET` with a
non-null source `default_dataset`, that dataset is migrated first
(`check_if_already_exists=True`, mode `EXAMPLES`) and its new ID used
as the created queue's `default_dataset`; otherwise the created queue's
`default_dataset` is null. -/
def migrate_annotation_queue (env : MigEnv) (old_annotation_queue_id : String)
    (check_if_already_exists : Bool) (migration_mode : QueueMigrationMode)
    (st : DestState) : Except MigError String × DestState :=
  let src := env.srcQueue old_annotation_queue_id
  let shortCircuit : Option (Except MigError String × DestState) :=
    if check_if_already_exists then
      match env.queueLookup st.queues src.name with
      | .error _ => none
      | .results qs =>
        match qs with
        | [] => none
        | [q] => some (.ok q.id, st)
        | _ => some (.error (.ambiguousQueueName src.name), st)
    else none
  match shortCircuit with
  | some r => r
  | none =>
    let dsStep : Except MigError (Option String) × DestState :=
      match migration_mode, src.default_dataset with
      | .QUEUE_AND_DATASET, some d =>
        match migrate_dataset env d true .EXAMPLES st with
        | (.ok newId, st1) => (.ok (some newId), st1)
        | (.error e, st1) => (.error e, st1)
      | _, _ => (.ok none, st)
    match dsStep with
    | (.error e, st1) => (.error e, st1)
    | (.ok dd, st1) =>
      let newId := freshId st1
      (.ok newId,
        { datasets := st1.datasets
          queues := st1.queues ++ [{ id := newId, name := src.name }]
          events := st1.events ++ [.createQueue newId (queueCreatePayload src dd)]
          nextId := st1.nextId + 1 })

/-- The body of the rule loop in `migrate_project_rules` (lines
282-332): a rule already carrying a non-null `dataset_id` is skipped
(`continue`, line 284); otherwise its `add_to_dataset_id` target is
migrated (`check_if_already_exists=True`, mode `EXAMPLES`) and its
`add_to_annotation_queue_id` target is migrated
(`check_if_already_exists=True`, mode `QUEUE_AND_DATASET`), and then
the destination rule is created from `ruleCreatePayload`. -/
def processRule (env : MigEnv) (new_project_id : String) (st : DestState)
    (r : SourceRule) : Except MigError Unit × DestState :=
  match r.dataset_id with
  | some _ => (.ok (), st)
  | none =>
    let dsStep : Except MigError (Option String) × DestState :=
      match r.add_to_dataset_id with
      | none => (.ok none, st)
      | some d =>
        match migrate_dataset env d true .EXAMPLES st with
        | (.ok newId, st1) => (.ok (some newId), st1)
        | (.error e, st1) => (.error e, st1)
    match dsStep with
    | (.error e, st1) => (.error e, st1)
    | (.ok ds, st1) =>
      let aqStep : Except MigError (Option String) × DestState :=
        match r.add_to_annotation_queue_id with
        | none => (.ok none, st1)
        | some q =>
          match migrate_annotation_queue env q true .QUEUE_AND_DATASET st1 with
          | (.ok newId, st2) => (.ok (some newId), st2)
          | (.error e, st2) => (.error e, st2)
      match aqStep with
      | (.error e, st2) => (.error e, st2)
      | (.ok aq, st2) =>
        (.ok (),
          { st2 with
            events := st2.events
              ++ [.createRule (ruleCreatePayload r new_project_id aq ds)] })

/-- The `for old_rule in old_rules` loop of `migrate_project_rules`:
sequential, aborting on the first raised exception. -/
def rulesLoop (env : MigEnv) (new_project_id : String) :
    DestState → List SourceRule → Except MigError Unit × DestState
  | st, [] => (.ok (), st)
  | st, r :: rs =>
    match processRule env new_project_id st r with
    | (.ok _, st1) => rulesLoop env new_project_id st1 rs
    | (.error e, st1) => (.error e, st1)

/-- `migrate_project_rules` (lines 270-332): fetch all rules of the
source project in one call and process them in order. -/
def migrate_project_rules (env : MigEnv) (old_project_id new_project_id : String)
    (st : DestState) : Except MigError Unit × DestState :=
  rulesLoop env new_project_id st (env.srcRules old_project_id)

/-- The URL of the initial queue fetch (line 218): hyphenated path. -/
def annotation_queue_fetch_url (base_url old_id : String) : String :=
  base_url ++ "/annotation-queues/" ++ old_id

/-- The URL of the queue existence-check lookup (line 226): underscore
path. -/
def annotation_queue_lookup_url (base_url name : String) : String :=
  base_url ++ "/annotation_queues?name=" ++ name

/-- The URL of the queue create POST (line 262): hyphenated path. -/
def annotation_queue_create_url (base_url : String) : String :=
  base_url ++ "/annotation-queues"

/-- Against a well-behaved offset server over `all`, the pagination
loop started at offset `k` (accumulator = the first `k` elements)
collects exactly `all`, given enough fuel. -/
theorem pageLoopAux_pagedServer (all : List α) :
    ∀ (fuel k : Nat), k ≤ all.length → all.length - k < 100 * fuel →
      pageLoopAux (pagedServer all) fuel (all.take k) = all := by
  intro fuel
  induction fuel with
  | zero => intro k _ h; exact absurd h (by omega)
  | succ fuel ih =>
    intro k hk h
    have hlen : (all.take k).length = k := by
      rw [List.length_take]; omega
    simp only [pageLoopAux, pagedServer, hlen]
    by_cases hbig : 100 ≤ all.length - k
    · have hpage : ((all.drop k).take 100).length = 100 := by
        rw [List.length_take, List.length_drop]; omega
      rw [if_pos hpage, ← List.take_add]
      exact ih (k + 100) (by omega) (by omega)
    · have hpagelen : ¬ ((all.drop k).take 100).length = 100 := by
        rw [List.length_take, List.length_drop]; omega
      have hdrop : (all.drop k).take 100 = all.drop k :=
        List.take_of_length_le (by rw [List.length_drop]; omega)
      rw [if_neg hpagelen, hdrop, List.take_append_drop]

/-- Pagination completeness: with enough fuel, the loop returns the
whole source collection. -/
theorem fetchAllPages_complete (all : List α) (fuel : Nat)
    (h : all.length < 100 * fuel) :
    fetchAllPages (pagedServer all) fuel = all := by
  have h0 := pageLoopAux_pagedServer all fuel 0 (Nat.zero_le _) (by omega)
  simpa [fetchAllPages] using h0

/-- C5: `migrate_dataset_examples` pages through source examples with
offset-based pagination at page size 100, looping while the last page
returned exactly 100 items and accumulating pages in order; against a
server paging a collection of exactly 250 items (pages 100/100/50) the
loop collects all 250 examples, and the batch submitted to the bulk
create has exactly 250 entries. -/
theorem c5_pagination_complete :
    (∀ (all : List SrcExample) (fuel : Nat), all.length < 100 * fuel →
      fetchAllPages (pagedServer all) fuel = all) ∧
    (∀ (all : List SrcExample) (new_dataset_id : String), all.length = 250 →
      fetchAllPages (pagedServer all) 3 = all ∧
      (submittedBatch (pagedServer all) new_dataset_id 3).length = 250) := by
  refine ⟨fun all fuel h => fetchAllPages_complete all fuel h, ?_⟩
  intro all new_dataset_id h
  have h3 : fetchAllPages (pagedServer all) 3 = all :=
    fetchAllPages_complete all 3 (by omega)
  exact ⟨h3, by rw [submittedBatch, h3, List.length_map, h]⟩

/-- A concrete source example used in witnesses. -/
def exampleAt (i : Nat) : SrcExample :=
  { id := toString i, inputs := "", outputs := none, metadata := none,
    created_at := "" }

/-- A concrete 250-element source collection. -/
def examples250 : List SrcExample := (List.range 250).map exampleAt

theorem c5_pagination_complete_witness :
    examples250.length = 250 ∧
    fetchAllPages (pagedServer examples250) 3 = examples250 ∧
    (submittedBatch (pagedServer examples250) "nd" 3).length = 250 := by
  have hlen : examples250.length = 250 := by
    rw [examples250, List.length_map, List.length_range]
  exact ⟨hlen, (c5_pagination_complete.2 examples250 "nd" hlen).1,
    (c5_pagination_complete.2 examples250 "nd" hlen).2⟩

/-- C6: the `split` field of every submitted example payload is
`metadata["dataset_split"]` when the example's metadata is non-null and
contains that key, and the literal `"base"` otherwise (metadata null,
or key missing). -/
theorem c6_split_field (new_dataset_id : String) (e : SrcExample) :
    (∀ m v, e.metadata = some m → m.lookup "dataset_split" = some v →
      (buildExamplePayload new_dataset_id e).split = v) ∧
    ((e.metadata = none ∨
        ∃ m, e.metadata = some m ∧ m.lookup "dataset_split" = none) →
      (buildExamplePayload new_dataset_id e).split = "base") := by
  constructor
  · intro m v hm hl
    simp only [buildExamplePayload, deriveSplit, hm]
    cases m with
    | nil => simp [List.lookup] at hl
    | cons p l => simp [hl]
  · intro hcase
    rcases hcase with h | ⟨m, hm, hl⟩
    · simp [buildExamplePayload, deriveSplit, h]
    · simp only [buildExamplePayload, deriveSplit, hm]
      cases m with
      | nil => simp
      | cons p l => simp [hl]

/-- A concrete example carrying a `dataset_split` key. -/
def exHoldout : SrcExample :=
  { id := "b", inputs := "ib", outputs := none,
    metadata := some [("dataset_split", "holdout")], created_at := "t" }

/-- A concrete example whose metadata lacks the `dataset_split` key. -/
def exPlain : SrcExample :=
  { id := "a", inputs := "ia", outputs := none,
    metadata := some [("k", "v")], created_at := "t" }

theorem c6_split_field_witness :
    (exHoldout.metadata = some [("dataset_split", "holdout")] ∧
      ([("dataset_split", "holdout")].lookup "dataset_split" = some "holdout") ∧
      (buildExamplePayload "nd" exHoldout).split = "holdout") ∧
    ((exPlain.metadata = none ∨
        ∃ m, exPlain.metadata = some m ∧ m.lookup "dataset_split" = none) ∧
      (buildExamplePayload "nd" exPlain).split = "base") :=
  ⟨⟨rfl, by decide,
    (c6_split_field "nd" exHoldout).1 [("dataset_split", "holdout")] "holdout"
      rfl (by decide)⟩,
   ⟨Or.inr ⟨[("k", "v")], rfl, by decide⟩,
    (c6_split_field "nd" exPlain).2 (Or.inr ⟨[("k", "v")], rfl, by decide⟩)⟩⟩

/-- The ordered list of source example IDs collected by the pagination
loop of `migrate_dataset_examples`. -/
def collectedIds (fetch : Nat → List SrcExample) (fuel : Nat) : List String :=
  (fetchAllPages fetch fuel).map SrcExample.id

/-- The ordered list of IDs returned by the destination bulk create. -/
def createdIds (fetch : Nat → List SrcExample)
    (bulkCreate : List ExamplePayload → List CreatedExample)
    (new_dataset_id : String) (fuel : Nat) : List String :=
  (bulkCreate (submittedBatch fetch new_dataset_id fuel)).map CreatedExample.id

theorem migrate_dataset_examples_eq (fetch : Nat → List SrcExample)
    (bulkCreate : List ExamplePayload → List CreatedExample)
    (new_dataset_id : String) (fuel : Nat) :
    migrate_dataset_examples fetch bulkCreate new_dataset_id fuel
      = buildIdMapping (collectedIds fetch fuel)
          (createdIds fetch bulkCreate new_dataset_id fuel) := rfl

/-- Positional access into a zip. -/
theorem zip_getElem_some {α β : Type} :
    ∀ (as : List α) (bs : List β) (i : Nat) (a : α) (b : β),
      as[i]? = some a → bs[i]? = some b → (as.zip bs)[i]? = some (a, b) := by
  intro as
  induction as with
  | nil => intro bs i a b ha _; simp at ha
  | cons x xs ih =>
    intro bs i a b ha hb
    cases bs with
    | nil => simp at hb
    | cons y ys =>
      cases i with
      | zero =>
        simp only [List.getElem?_cons_zero, Option.some.injEq] at ha hb
        simp [List.zip_cons_cons, ha, hb]
      | succ n =>
        simp only [List.getElem?_cons_succ] at ha hb
        simp only [List.zip_cons_cons, List.getElem?_cons_succ]
        exact ih ys n a b ha hb

/-- C1: assuming the destination bulk create returns as many records as
submitted, the mapping returned by `migrate_dataset_examples` pairs the
i-th collected source example ID with the i-th created ID: it has
exactly N entries, its keys are the N (distinct) source IDs in order and
its values the N (distinct) created IDs in order. -/
theorem c1_mapping_bijective (fetch : Nat → List SrcExample)
    (bulkCreate : List ExamplePayload → List CreatedExample)
    (new_dataset_id : String) (fuel : Nat)
    (hlen : (createdIds fetch bulkCreate new_dataset_id fuel).length
      = (collectedIds fetch fuel).length)
    (hO : (collectedIds fetch fuel).Nodup)
    (hN : (createdIds fetch bulkCreate new_dataset_id fuel).Nodup) :
    ∃ m, migrate_dataset_examples fetch bulkCreate new_dataset_id fuel = some m ∧
      m.length = (collectedIds fetch fuel).length ∧
      m.map Prod.fst = collectedIds fetch fuel ∧
      m.map Prod.snd = createdIds fetch bulkCreate new_dataset_id fuel ∧
      (m.map Prod.fst).Nodup ∧ (m.map Prod.snd).Nodup ∧
      (∀ (i : Nat) (oldId newId : String),
        (collectedIds fetch fuel)[i]? = some oldId →
        (createdIds fetch bulkCreate new_dataset_id fuel)[i]? = some newId →
        m[i]? = some (oldId, newId)) := by
  set O := collectedIds fetch fuel with hOdef
  set C := createdIds fetch bulkCreate new_dataset_id fuel with hCdef
  have htake : O.take C.length = O := by
    rw [hlen, List.take_length]
  have hmap : migrate_dataset_examples fetch bulkCreate new_dataset_id fuel
      = some (O.zip C) := by
    rw [migrate_dataset_examples_eq, ← hOdef, ← hCdef, buildIdMapping,
      if_pos (le_of_eq hlen), htake]
  refine ⟨O.zip C, hmap, ?_, ?_, ?_, ?_, ?_, ?_⟩
  · rw [List.length_zip, hlen, min_self]
  · exact List.map_fst_zip O C (le_of_eq hlen.symm)
  · exact List.map_snd_zip O C (le_of_eq hlen)
  · rw [List.map_fst_zip O C (le_of_eq hlen.symm)]; exact hO
  · rw [List.map_snd_zip O C (le_of_eq hlen)]; exact hN
  · intro i oldId newId ho hc
    exact zip_getElem_some O C i oldId newId ho hc

/-- A two-example source collection for witnesses. -/
def fetch2 : Nat → List SrcExample := pagedServer [exPlain, exHoldout]

/-- A destination bulk create answering with fresh sequential IDs, one
per submitted payload. -/
def bulk2 : List ExamplePayload → List CreatedExample :=
  fun ps => (List.range ps.length).map (fun i => { id := "n-" ++ toString i })

theorem c1_mapping_bijective_witness :
    (createdIds fetch2 bulk2 "nd" 1).length = (collectedIds fetch2 1).length ∧
    (collectedIds fetch2 1).Nodup ∧
    (createdIds fetch2 bulk2 "nd" 1).Nodup ∧
    ∃ m, migrate_dataset_examples fetch2 bulk2 "nd" 1 = some m ∧
      m.length = (collectedIds fetch2 1).length ∧
      m.map Prod.fst = collectedIds fetch2 1 ∧
      m.map Prod.snd = createdIds fetch2 bulk2 "nd" 1 ∧
      (m.map Prod.fst).Nodup ∧ (m.map Prod.snd).Nodup ∧
      (∀ (i : Nat) (oldId newId : String),
        (collectedIds fetch2 1)[i]? = some oldId →
        (createdIds fetch2 bulk2 "nd" 1)[i]? = some newId →
        m[i]? = some (oldId, newId)) :=
  ⟨by decide, by decide, by decide,
    c1_mapping_bijective fetch2 bulk2 "nd" 1 (by decide) (by decide) (by decide)⟩

/-- Every element of a successful `optionMapList` run corresponds to a
successful application of `f` to a member of the input. -/
theorem optionMapList_mem {α β : Type} (f : α → Option β) :
    ∀ (l : List α) (res : List β), optionMapList f l = some res →
      ∀ a ∈ l, ∃ b ∈ res, f a = some b := by
  intro l
  induction l with
  | nil => intro res _ a ha; simp at ha
  | cons x xs ih =>
    intro res h a ha
    rw [optionMapList] at h
    cases hx : f x with
    | none => rw [hx] at h; simp at h
    | some b =>
      rw [hx] at h
      cases hxs : optionMapList f xs with
      | none => rw [hxs] at h; simp at h
      | some bs =>
        rw [hxs] at h
        simp only [Option.some.injEq] at h
        subst h
        rcases List.mem_cons.mp ha with rfl | hmem
        · exact ⟨b, List.mem_cons_self b bs, hx⟩
        · obtain ⟨c, hc, hfc⟩ := ih bs hxs a hmem
          exact ⟨c, List.mem_cons_of_mem b hc, hfc⟩

/-- C2: every run of a successfully built `POST /runs/batch` payload
has its `session_id` replaced by the experiment mapping's image of its
source `session_id`, its `reference_example_id` replaced by the example
mapping's image when a source reference example is present (and null,
without error, when absent), and `id`, `trace_id`, `dotted_order` and
`parent_run_id` copied verbatim. -/
theorem c2_run_rewrite (expMap exMap : List (String × String))
    (runs : List SrcRun) (batch : List RunPayload)
    (hb : buildRunsBatch expMap exMap runs = some batch)
    (r : SrcRun) (hr : r ∈ runs) :
    ∃ p ∈ batch,
      rewriteRun expMap exMap r = some p ∧
      (∃ newSid, expMap.lookup r.session_id = some newSid ∧
        p.session_id = newSid) ∧
      (∀ x newX, r.reference_example_id = some x → exMap.lookup x = some newX →
        p.reference_example_id = some newX) ∧
      (r.reference_example_id = none → p.reference_example_id = none) ∧
      p.id = r.id ∧ p.trace_id = r.trace_id ∧
      p.dotted_order = r.dotted_order ∧ p.parent_run_id = r.parent_run_id := by
  obtain ⟨p, hp, hfp⟩ := optionMapList_mem (rewriteRun expMap exMap) runs batch hb r hr
  refine ⟨p, hp, hfp, ?_⟩
  rw [rewriteRun] at hfp
  cases hs : expMap.lookup r.session_id with
  | none => rw [hs] at hfp; simp at hfp
  | some sid =>
    rw [hs] at hfp
    simp only [Option.some.injEq] at hfp
    refine ⟨⟨sid, rfl, by rw [← hfp]⟩, ?_, ?_, ?_, ?_, ?_, ?_⟩
    · intro x newX hx hlx
      rw [← hfp]
      simp [hx, hlx]
    · intro hx
      rw [← hfp]
      simp [hx]
    · rw [← hfp]
    · rw [← hfp]
    · rw [← hfp]
    · rw [← hfp]

/-- A concrete run referencing experiment E1 and example X10. -/
def run1 : SrcRun :=
  { name := "r1", inputs := "i", run_type := "chain", start_time := "s",
    end_time := "e", extra := "x", error := none, serialized := none,
    outputs := none, parent_run_id := some "p0", events := none, tags := none,
    trace_id := "tr", id := "rid1", dotted_order := "do1", session_id := "E1",
    session_name := none, reference_example_id := some "X10",
    input_attachments := none, output_attachments := none }

/-- A concrete run with no reference example. -/
def run2 : SrcRun := { run1 with id := "rid2", reference_example_id := none }

/-- A concrete experiment ID mapping. -/
def expMap1 : List (String × String) := [("E1", "NE1")]

/-- A concrete example ID mapping. -/
def exMap1 : List (String × String) := [("X10", "NX10")]

/-- The batch built from the two concrete runs. -/
def batch1 : List RunPayload := (buildRunsBatch expMap1 exMap1 [run1, run2]).getD []

theorem c2_run_rewrite_witness :
    buildRunsBatch expMap1 exMap1 [run1, run2] = some batch1 ∧
    run1 ∈ [run1, run2] ∧
    ∃ p ∈ batch1,
      rewriteRun expMap1 exMap1 run1 = some p ∧
      (∃ newSid, expMap1.lookup run1.session_id = some newSid ∧
        p.session_id = newSid) ∧
      (∀ x newX, run1.reference_example_id = some x →
        exMap1.lookup x = some newX → p.reference_example_id = some newX) ∧
      (run1.reference_example_id = none → p.reference_example_id = none) ∧
      p.id = run1.id ∧ p.trace_id = run1.trace_id ∧
      p.dotted_order = run1.dotted_order ∧ p.parent_run_id = run1.parent_run_id :=
  ⟨by decide, by decide,
    c2_run_rewrite expMap1 exMap1 [run1, run2] batch1 (by decide) run1 (by decide)⟩


/-- The destination state after the create branch of `migrate_dataset`
(lines 45-70): the new dataset appended, the create POST and the
mode-dependent sub-migrations recorded, the ID counter advanced. -/
def createdDatasetState (env : MigEnv) (original_dataset_id : String)
    (mode : MigrationMode) (st : DestState) : DestState :=
  { datasets := st.datasets
      ++ [⟨freshId st, (env.srcDataset original_dataset_id).name⟩],
    queues := st.queues,
    events := st.events
      ++ [.createDataset (freshId st)
            (datasetCreatePayload (env.srcDataset original_dataset_id))]
      ++ modeEvents mode original_dataset_id (freshId st),
    nextId := st.nextId + 1 }

/-- C3: with `check_if_already_exists=True` against a destination whose
name lookup returns exactly the datasets carrying the queried name, a
single match short-circuits `migrate_dataset`: the match's ID is
returned and the destination is untouched (no create, no example or
experiment migration).  Hence, starting from a destination with no
dataset of that name, running `migrate_dataset` twice returns the same
new ID both times and leaves exactly one dataset of that name. -/
theorem c3_idempotent (env : MigEnv) (original_dataset_id : String)
    (mode : MigrationMode) (henv : env.datasetLookup = nameFilterLookup)
    (st : DestState) :
    (∀ d, st.datasets.filter
        (fun x => x.name = (env.srcDataset original_dataset_id).name) = [d] →
      migrate_dataset env original_dataset_id true mode st = (.ok d.id, st)) ∧
    (st.datasets.filter
        (fun x => x.name = (env.srcDataset original_dataset_id).name) = [] →
      ∃ newId st1,
        migrate_dataset env original_dataset_id true mode st = (.ok newId, st1) ∧
        st1.datasets.filter
            (fun x => x.name = (env.srcDataset original_dataset_id).name)
          = [⟨newId, (env.srcDataset original_dataset_id).name⟩] ∧
        migrate_dataset env original_dataset_id true mode st1 = (.ok newId, st1)) := by
  constructor
  · intro d hfilter
    simp [migrate_dataset, henv, nameFilterLookup, hfilter]
  · intro hfilter
    have hf1 : (st.datasets
        ++ [(⟨freshId st, (env.srcDataset original_dataset_id).name⟩ : DatasetRec)]).filter
        (fun x => x.name = (env.srcDataset original_dataset_id).name)
        = [⟨freshId st, (env.srcDataset original_dataset_id).name⟩] := by
      simp only [List.filter_append, hfilter, List.nil_append]
      simp
    refine ⟨freshId st, createdDatasetState env original_dataset_id mode st,
      ?_, ?_, ?_⟩
    · simp [migrate_dataset, henv, nameFilterLookup, hfilter, createdDatasetState]
    · simpa [createdDatasetState] using hf1
    · simp only [migrate_dataset, henv, nameFilterLookup, createdDatasetState]
      simp only [hf1]
      simp

/-- C4: with `check_if_already_exists=True`, a destination name lookup
answering with more than one dataset of the source dataset's name makes
`migrate_dataset` raise the ambiguous-name `ValueError` and leaves the
destination state unchanged: nothing is created. -/
theorem c4_ambiguous_name (env : MigEnv) (original_dataset_id : String)
    (mode : MigrationMode) (st : DestState) (d1 d2 : DatasetRec)
    (rest : List DatasetRec)
    (hmany : env.datasetLookup st.datasets (env.srcDataset original_dataset_id).name
      = .results (d1 :: d2 :: rest)) :
    migrate_dataset env original_dataset_id true mode st
      = (.error (.ambiguousName (env.srcDataset original_dataset_id).name), st) := by
  simp [migrate_dataset, hmany]

/-- C10: when the destination name-lookup response is an error body
(contains `"detail"`), `migrate_dataset` with
`check_if_already_exists=True` silently skips the existence and
ambiguity checks — it behaves exactly like a call with the check off —
and unconditionally creates a new destination dataset, even if datasets
of that name already exist. -/
theorem c10_detail_skips_checks (env : MigEnv) (original_dataset_id : String)
    (mode : MigrationMode) (st : DestState) (detail : String)
    (herr : env.datasetLookup st.datasets (env.srcDataset original_dataset_id).name
      = .error detail) :
    migrate_dataset env original_dataset_id true mode st
      = migrate_dataset env original_dataset_id false mode st ∧
    migrate_dataset env original_dataset_id true mode st
      = (.ok (freshId st), createdDatasetState env original_dataset_id mode st) := by
  constructor
  · simp [migrate_dataset, herr]
  · simp [migrate_dataset, herr, createdDatasetState]

/-- The destination state after the create branch of
`migrate_annotation_queue` (lines 247-267): the new queue appended, the
create POST recorded, the ID counter advanced. -/
def createdQueueState (env : MigEnv) (old_annotation_queue_id : String)
    (default_dataset : Option String) (st : DestState) : DestState :=
  { datasets := st.datasets,
    queues := st.queues
      ++ [⟨freshId st, (env.srcQueue old_annotation_queue_id).name⟩],
    events := st.events
      ++ [.createQueue (freshId st)
            (queueCreatePayload (env.srcQueue old_annotation_queue_id)
              default_dataset)],
    nextId := st.nextId + 1 }

/-- C8: when the existence check does not short-circuit, a
`QUEUE_AND_DATASET` migration of a queue with a non-null source
`default_dataset` first migrates that dataset via `migrate_dataset`
(`check_if_already_exists=True`, mode `EXAMPLES`) and creates the
destination queue with `default_dataset` equal to the resulting new
dataset ID, while `QUEUE_ONLY` creates the queue with `default_dataset`
null even if the source queue has one. -/
theorem c8_queue_default_dataset (env : MigEnv) (qid : String) (st : DestState)
    (hlk : env.queueLookup st.queues (env.srcQueue qid).name = .results []) :
    (∀ d dsId st1, (env.srcQueue qid).default_dataset = some d →
      migrate_dataset env d true .EXAMPLES st = (.ok dsId, st1) →
      migrate_annotation_queue env qid true .QUEUE_AND_DATASET st
        = (.ok (freshId st1), createdQueueState env qid (some dsId) st1)) ∧
    (migrate_annotation_queue env qid true .QUEUE_ONLY st
        = (.ok (freshId st), createdQueueState env qid none st) ∧
      (queueCreatePayload (env.srcQueue qid) none).default_dataset = none) := by
  refine ⟨?_, ?_, rfl⟩
  · intro d dsId st1 hd hm
    simp [migrate_annotation_queue, hlk, hd, hm, createdQueueState]
  · simp [migrate_annotation_queue, hlk, createdQueueState]

/-- C9: the existence check of `migrate_annotation_queue` issues its
lookup GET against the underscore path `annotation_queues` while the
initial fetch and the create POST use the hyphenated path
`annotation-queues`; against a destination that answers the underscore
path with an error body containing `"detail"`, the check never
short-circuits and the call always creates a new queue, even when a
queue of the same name already exists on the destination. -/
theorem c9_lookup_path_mismatch (env : MigEnv) (qid : String) (detail : String)
    (herr : ∀ qs n, env.queueLookup qs n = .error detail) :
    ("annotation_queues" ≠ "annotation-queues" ∧
      (∀ b n, annotation_queue_lookup_url b n
        = b ++ "/annotation_queues?name=" ++ n) ∧
      (∀ b i, annotation_queue_fetch_url b i = b ++ "/annotation-queues/" ++ i) ∧
      (∀ b, annotation_queue_create_url b = b ++ "/annotation-queues")) ∧
    (∀ st, migrate_annotation_queue env qid true .QUEUE_ONLY st
      = (.ok (freshId st), createdQueueState env qid none st)) ∧
    (∀ st, (env.srcQueue qid).default_dataset = none →
      migrate_annotation_queue env qid true .QUEUE_AND_DATASET st
        = (.ok (freshId st), createdQueueState env qid none st)) ∧
    (∀ st d dsId st1, (env.srcQueue qid).default_dataset = some d →
      migrate_dataset env d true .EXAMPLES st = (.ok dsId, st1) →
      migrate_annotation_queue env qid true .QUEUE_AND_DATASET st
        = (.ok (freshId st1), createdQueueState env qid (some dsId) st1)) := by
  refine ⟨⟨by decide, fun b n => rfl, fun b i => rfl, fun b => rfl⟩, ?_, ?_, ?_⟩
  · intro st
    simp [migrate_annotation_queue, herr, createdQueueState]
  · intro st hd
    simp [migrate_annotation_queue, herr, hd, createdQueueState]
  · intro st d dsId st1 hd hm
    simp [migrate_annotation_queue, herr, hd, hm, createdQueueState]

/-- In `migrate_project_rules`, a batch in which every rule carries a
non-null `dataset_id` is processed without touching the destination. -/
theorem rulesLoop_all_skipped (env : MigEnv) (npid : String) :
    ∀ (rs : List SourceRule) (st : DestState),
      (∀ r ∈ rs, r.dataset_id.isSome) →
      rulesLoop env npid st rs = (.ok (), st) := by
  intro rs
  induction rs with
  | nil => intro st _; rfl
  | cons r rs ih =>
    intro st h
    obtain ⟨x, hx⟩ := Option.isSome_iff_exists.mp (h r (List.mem_cons_self r rs))
    simp only [rulesLoop, processRule, hx]
    exact ih st (fun r' hr' => h r' (List.mem_cons_of_mem r hr'))

/-- C7: in `migrate_project_rules`, a rule with a non-null `dataset_id`
is skipped entirely (no rule created, destination untouched); a rule
with `add_to_dataset_id` set triggers `migrate_dataset`
(`check_if_already_exists=True`, mode `EXAMPLES`) on that dataset
before the rule is created, and the created rule's payload carries
`add_to_dataset_id` equal to the migration's resulting new dataset ID,
`session_id` forced to the new project ID, and `dataset_id` null. -/
theorem c7_rule_cascade (env : MigEnv) (new_project_id : String) :
    (∀ st r x, r.dataset_id = some x →
      processRule env new_project_id st r = (.ok (), st)) ∧
    (∀ old_project_id st,
      (∀ r ∈ env.srcRules old_project_id, r.dataset_id.isSome) →
      migrate_project_rules env old_project_id new_project_id st = (.ok (), st)) ∧
    (∀ r aq ds,
      (ruleCreatePayload r new_project_id aq ds).session_id = new_project_id ∧
      (ruleCreatePayload r new_project_id aq ds).dataset_id = none ∧
      (ruleCreatePayload r new_project_id aq ds).add_to_dataset_id = ds) ∧
    (∀ st r d dsId st1, r.dataset_id = none → r.add_to_dataset_id = some d →
      r.add_to_annotation_queue_id = none →
      migrate_dataset env d true .EXAMPLES st = (.ok dsId, st1) →
      processRule env new_project_id st r
        = (.ok (), { st1 with events := st1.events
            ++ [.createRule
                  (ruleCreatePayload r new_project_id none (some dsId))] })) ∧
    (∀ st r d dsId st1 q aqId st2, r.dataset_id = none →
      r.add_to_dataset_id = some d → r.add_to_annotation_queue_id = some q →
      migrate_dataset env d true .EXAMPLES st = (.ok dsId, st1) →
      migrate_annotation_queue env q true .QUEUE_AND_DATASET st1
        = (.ok aqId, st2) →
      processRule env new_project_id st r
        = (.ok (), { st2 with events := st2.events
            ++ [.createRule
                  (ruleCreatePayload r new_project_id (some aqId)
                    (some dsId))] })) := by
  refine ⟨?_, ?_, fun r aq ds => ⟨rfl, rfl, rfl⟩, ?_, ?_⟩
  · intro st r x hx
    simp [processRule, hx]
  · intro old_project_id st h
    exact rulesLoop_all_skipped env new_project_id (env.srcRules old_project_id) st h
  · intro st r d dsId st1 h1 h2 h3 hm
    simp [processRule, h1, h2, h3, hm]
  · intro st r d dsId st1 q aqId st2 h1 h2 h3 hm hq
    simp [processRule, h1, h2, h3, hm, hq]

/-- A concrete source dataset for witnesses. -/
def srcDataset0 : SourceDataset :=
  { name := "ds-name", description := "d", created_at := "t",
    inputs_schema_definition := none, outputs_schema_definition := none,
    externally_managed := false, transformations := none, data_type := "kv" }

/-- A concrete source annotation queue with a default dataset. -/
def srcQueue0 : SourceQueue :=
  { name := "q-name", description := none, created_at := "t", updated_at := "t",
    default_dataset := some "DS1", num_reviewers_per_item := 1,
    enable_reservations := false, reservation_minutes := none,
    rubric_items := [], rubric_instructions := none }

/-- A concrete rule routing runs into dataset DS1. -/
def rule0 : SourceRule :=
  { display_name := "r", dataset_id := none, add_to_dataset_id := some "DS1",
    add_to_annotation_queue_id := none, is_enabled := true,
    sampling_rate := "1.0", filter := none, trace_filter := none,
    tree_filter := none, add_to_dataset_prefer_correction := false,
    use_corrections_dataset := false, num_few_shot_examples := none,
    extend_only := false, transient := false, backfill_from := none,
    evaluators := [], code_evaluators := [], alerts := [], webhooks := [] }

/-- A concrete rule that (anomalously) carries a `dataset_id`. -/
def ruleSkip : SourceRule := { rule0 with dataset_id := some "X" }

/-- A concrete environment with well-behaved name lookups. -/
def env0 : MigEnv :=
  { srcDataset := fun _ => srcDataset0,
    srcQueue := fun _ => srcQueue0,
    srcRules := fun _ => [ruleSkip],
    datasetLookup := nameFilterLookup,
    queueLookup := queueNameFilterLookup }

/-- A concrete environment whose destination lookups answer with an
error body. -/
def envErr : MigEnv :=
  { env0 with
    datasetLookup := fun _ _ => .error "Not Found",
    queueLookup := fun _ _ => .error "Not Found" }

/-- An empty destination. -/
def st0 : DestState := { datasets := [], queues := [], events := [], nextId := 0 }

/-- A destination already holding one dataset named `ds-name`. -/
def stOne : DestState :=
  { datasets := [⟨"D1", "ds-name"⟩], queues := [], events := [], nextId := 5 }

/-- A destination holding two datasets named `ds-name`. -/
def stTwo : DestState :=
  { datasets := [⟨"D1", "ds-name"⟩, ⟨"D2", "ds-name"⟩], queues := [],
    events := [], nextId := 7 }

/-- A destination already holding one queue named `q-name`. -/
def stQ : DestState :=
  { datasets := [], queues := [⟨"Q1", "q-name"⟩], events := [], nextId := 3 }

theorem c3_idempotent_witness :
    (env0.datasetLookup = nameFilterLookup ∧
      stOne.datasets.filter
        (fun x => x.name = (env0.srcDataset "orig").name) = [⟨"D1", "ds-name"⟩] ∧
      migrate_dataset env0 "orig" true .EXAMPLES stOne = (.ok "D1", stOne)) ∧
    (st0.datasets.filter (fun x => x.name = (env0.srcDataset "orig").name) = [] ∧
      ∃ newId st1,
        migrate_dataset env0 "orig" true .EXAMPLES st0 = (.ok newId, st1) ∧
        st1.datasets.filter (fun x => x.name = (env0.srcDataset "orig").name)
          = [⟨newId, (env0.srcDataset "orig").name⟩] ∧
        migrate_dataset env0 "orig" true .EXAMPLES st1 = (.ok newId, st1)) :=
  ⟨⟨rfl, by decide,
     (c3_idempotent env0 "orig" .EXAMPLES rfl stOne).1 ⟨"D1", "ds-name"⟩
       (by decide)⟩,
   ⟨by decide, (c3_idempotent env0 "orig" .EXAMPLES rfl st0).2 (by decide)⟩⟩

theorem c4_ambiguous_name_witness :
    env0.datasetLookup stTwo.datasets (env0.srcDataset "orig").name
      = .results [⟨"D1", "ds-name"⟩, ⟨"D2", "ds-name"⟩] ∧
    migrate_dataset env0 "orig" true .EXAMPLES stTwo
      = (.error (.ambiguousName (env0.srcDataset "orig").name), stTwo) :=
  ⟨by decide,
    c4_ambiguous_name env0 "orig" .EXAMPLES stTwo ⟨"D1", "ds-name"⟩
      ⟨"D2", "ds-name"⟩ [] (by decide)⟩

theorem c10_detail_skips_checks_witness :
    envErr.datasetLookup stOne.datasets (envErr.srcDataset "orig").name
      = .error "Not Found" ∧
    (migrate_dataset envErr "orig" true .EXAMPLES stOne
        = migrate_dataset envErr "orig" false .EXAMPLES stOne ∧
      migrate_dataset envErr "orig" true .EXAMPLES stOne
        = (.ok (freshId stOne), createdDatasetState envErr "orig" .EXAMPLES stOne)) :=
  ⟨rfl, c10_detail_skips_checks envErr "orig" .EXAMPLES stOne "Not Found" rfl⟩

theorem c8_queue_default_dataset_witness :
    env0.queueLookup st0.queues (env0.srcQueue "q").name = .results [] ∧
    (env0.srcQueue "q").default_dataset = some "DS1" ∧
    migrate_dataset env0 "DS1" true .EXAMPLES st0
      = (.ok (freshId st0), createdDatasetState env0 "DS1" .EXAMPLES st0) ∧
    migrate_annotation_queue env0 "q" true .QUEUE_AND_DATASET st0
      = (.ok (freshId (createdDatasetState env0 "DS1" .EXAMPLES st0)),
         createdQueueState env0 "q" (some (freshId st0))
           (createdDatasetState env0 "DS1" .EXAMPLES st0)) :=
  ⟨by decide, rfl, rfl,
    (c8_queue_default_dataset env0 "q" st0 (by decide)).1 "DS1" (freshId st0)
      (createdDatasetState env0 "DS1" .EXAMPLES st0) rfl rfl⟩

theorem c9_lookup_path_mismatch_witness :
    (∀ qs n, envErr.queueLookup qs n = .error "Not Found") ∧
    migrate_annotation_queue envErr "q" true .QUEUE_ONLY stQ
      = (.ok (freshId stQ), createdQueueState envErr "q" none stQ) :=
  ⟨fun _ _ => rfl,
    (c9_lookup_path_mismatch envErr "q" "Not Found" (fun _ _ => rfl)).2.1 stQ⟩

theorem c7_rule_cascade_witness :
    ruleSkip.dataset_id = some "X" ∧
    processRule env0 "NP" st0 ruleSkip = (.ok (), st0) ∧
    (∀ r ∈ env0.srcRules "OP", r.dataset_id.isSome) ∧
    migrate_project_rules env0 "OP" "NP" st0 = (.ok (), st0) ∧
    rule0.dataset_id = none ∧ rule0.add_to_dataset_id = some "DS1" ∧
    rule0.add_to_annotation_queue_id = none ∧
    migrate_dataset env0 "DS1" true .EXAMPLES st0
      = (.ok (freshId st0), createdDatasetState env0 "DS1" .EXAMPLES st0) ∧
    processRule env0 "NP" st0 rule0
      = (.ok (), { createdDatasetState env0 "DS1" .EXAMPLES st0 with
          events := (createdDatasetState env0 "DS1" .EXAMPLES st0).events
            ++ [.createRule
                  (ruleCreatePayload rule0 "NP" none (some (freshId st0)))] }) :=
  ⟨rfl,
   (c7_rule_cascade env0 "NP").1 st0 ruleSkip "X" rfl,
   by decide,
   (c7_rule_cascade env0 "NP").2.1 "OP" st0 (by decide),
   rfl, rfl, rfl,
   rfl,
   (c7_rule_cascade env0 "NP").2.2.2.1 st0 rule0 "DS1" (freshId st0)
     (createdDatasetState env0 "DS1" .EXAMPLES st0) rfl rfl rfl rfl⟩
